import Mathlib

/-!
Verification development for the per-slot grant allocation engine of the
srsRAN scheduler and its supporting utilities.

Definitions are shallow embeddings of the C++ sources:
  - bounded_integer                (src/unnamed/part_001)
  - slice decorator allocators     (src/unnamed/part_003)
  - NEON 9-bit IQ packing          (src/lib/ofh/compression/packing_utils_neon.h)
The implementation files of ue_cell_grid_allocator, the resource grid, the
TDD pattern evaluator and the scheduler driving loop are not part of the
source snapshot; those components are modelled from the specification and
are marked as such in their doc comments.
-/

namespace srsran

/-! ## bounded_integer (src/unnamed/part_001)

The C++ class template is over an integral type Integer.  An integral type
is modelled by its bit width and signedness.  The converting constructor
and operator= receive a value of a convertible type U and convert it to
Integer before anything else happens: the member initializer value(v) and
the Integer-typed parameter of assert_bounds both perform that integral
conversion, which truncates (two-complement wrap-around).  The model
therefore applies the conversion before both the bounds assertion and the
store. -/

/-- A C++ integral type: bit width and signedness. -/
structure cpp_int_type where
  width : Nat
  signed : Bool
deriving DecidableEq

/-- The C++ integral conversion to this type: reduction modulo 2 ^ width
into the representable range of the type (two-complement wrap-around for a
signed destination). -/
def cpp_int_type.conv (t : cpp_int_type) (v : Int) : Int :=
  if t.signed = true ∧ (2 : Int) ^ (t.width - 1) ≤ v % (2 : Int) ^ t.width then
    v % (2 : Int) ^ t.width - (2 : Int) ^ t.width
  else
    v % (2 : Int) ^ t.width

/-- The uint8_t instantiation used by sch_mcs_index (src/unnamed/part_000):
bounded_integer of uint8_t with bounds 0 and 31. -/
def uint8_type : cpp_int_type := { width := 8, signed := false }

/-- Shallow embedding of the state of bounded_integer of Integer,
MIN_VALUE, MAX_VALUE: it stores a value of type Integer (field value of the
C++ class). -/
structure bounded_integer (It : cpp_int_type) (MIN_VALUE MAX_VALUE : Int) where
  value : Int
deriving DecidableEq

/-- The default constructor: bounded_integer() : value(MAX_VALUE + 1).  The
sentinel MAX_VALUE + 1 is computed in promoted arithmetic and converted to
Integer by the member initializer. -/
def bounded_integer.default_ctor (It : cpp_int_type) (MIN_VALUE MAX_VALUE : Int) :
    bounded_integer It MIN_VALUE MAX_VALUE :=
  { value := It.conv (MAX_VALUE + 1) }

/-- assert_bounds(v): the condition checked by srsran_assert, namely
v >= MIN_VALUE and v <= MAX_VALUE; its parameter already has type
Integer. -/
def bounded_integer.assert_bounds (MIN_VALUE MAX_VALUE v : Int) : Bool :=
  decide (MIN_VALUE ≤ v ∧ v ≤ MAX_VALUE)

/-- The converting constructor bounded_integer(U v): the argument is
converted to Integer (by the member initializer value(v) and again by the
Integer-typed parameter of assert_bounds), the bounds are asserted on the
converted value, and the converted value is stored.  A failed srsran_assert
aborts, modelled as none. -/
def bounded_integer.make (It : cpp_int_type) (MIN_VALUE MAX_VALUE : Int) (v : Int) :
    Option (bounded_integer It MIN_VALUE MAX_VALUE) :=
  if bounded_integer.assert_bounds MIN_VALUE MAX_VALUE (It.conv v) then
    some { value := It.conv v }
  else
    none

/-- operator=(U v): converts v to Integer, asserts the bounds on the
converted value, then overwrites the stored value with it. -/
def bounded_integer.assign (It : cpp_int_type) (MIN_VALUE MAX_VALUE : Int)
    (_b : bounded_integer It MIN_VALUE MAX_VALUE) (v : Int) :
    Option (bounded_integer It MIN_VALUE MAX_VALUE) :=
  if bounded_integer.assert_bounds MIN_VALUE MAX_VALUE (It.conv v) then
    some { value := It.conv v }
  else
    none

/-- is_valid(): value >= MIN_VALUE and value <= MAX_VALUE. -/
def bounded_integer.is_valid {It : cpp_int_type} {MIN_VALUE MAX_VALUE : Int}
    (b : bounded_integer It MIN_VALUE MAX_VALUE) : Bool :=
  decide (MIN_VALUE ≤ b.value ∧ b.value ≤ MAX_VALUE)

/-! ## Grant allocation engine

The header src/unnamed/part_003 declares ue_cell_grid_allocator (cells added
via add_cell, the slots_with_no_pdsch_space / slots_with_no_pusch_space
caches, slot_indication, allocate_dl_grant, allocate_ul_grant) and defines
the slice decorator classes.  The corresponding .cpp implementation, the
resource grid, the PDCCH/UCI allocators and alloc_result are not part of the
source snapshot; they are modelled from the specification below. -/

/-- Direction of a grant (DL = PDSCH, UL = PUSCH). -/
inductive grant_dir
  | dl
  | ul
deriving DecidableEq

/-- Modelled from the spec: the typed outcome statuses of an allocation call
(error taxonomy of sections 4.3 and 7: success, configuration error for an
unregistered cell, and the distinct capacity failures for PDCCH, UCI and RB
space).  The enum definition itself is missing from the source snapshot. -/
inductive alloc_status
  | success
  | invalid_params
  | no_pdcch_space
  | no_uci_space
  | no_rb_space
deriving DecidableEq

/-- Modelled from the spec: the allocation result, a tagged outcome returned
synchronously from every allocation call (success carries the RB count
actually granted). -/
structure alloc_result where
  status : alloc_status
  alloc_nof_rbs : Nat
deriving DecidableEq

/-- A scheduled data grant (spec section 3): terminal id, cell, slot,
direction, RB interval and symbol range. -/
structure sched_grant where
  ue_index : Nat
  cell_index : Nat
  slot : Nat
  dir : grant_dir
  rb_start : Nat
  rb_len : Nat
  sym_start : Nat
  sym_len : Nat
deriving DecidableEq

/-- Two grants occupy overlapping (RB, symbol-range) positions of the same
cell/slot/direction resource grid. -/
def grants_overlap (a b : sched_grant) : Prop :=
  a.cell_index = b.cell_index ∧ a.slot = b.slot ∧ a.dir = b.dir ∧
  a.rb_start < b.rb_start + b.rb_len ∧ b.rb_start < a.rb_start + a.rb_len ∧
  a.sym_start < b.sym_start + b.sym_len ∧ b.sym_start < a.sym_start + a.sym_len

instance (a b : sched_grant) : Decidable (grants_overlap a b) := by
  unfold grants_overlap
  infer_instance

/-- Static per-cell configuration (spec section 3): number of RBs and the
per-slot PDCCH and PUCCH/UCI resource pool capacities. -/
structure cell_config where
  nof_rbs : Nat
  pdcch_capacity : Nat
  uci_capacity : Nat
deriving DecidableEq

/-- Modelled from the spec: the per-cell state held by the allocator, i.e.
the registered cell index and configuration together with the rolling
resource-grid occupancy (the emitted grants still inside the look-ahead
window) and the PDCCH and UCI reservations (one list entry per reserved
candidate, keyed by slot). -/
structure cell_context where
  cell_index : Nat
  cfg : cell_config
  grants : List sched_grant
  pdcch_resv : List Nat
  uci_resv : List Nat
deriving DecidableEq

/-- Look-ahead horizon of the rolling grid window (SCHEDULER_MAX_K0 slots
ahead of the current slot may be allocated). -/
def scheduler_max_k0 : Nat := 3

/-- Modelled from the spec: the state of ue_cell_grid_allocator, following
the members declared in src/unnamed/part_003: the registered cells, the two
no-space slot caches, the per-slot allocation attempt counters and the
current slot set by slot_indication. -/
structure ue_cell_grid_allocator where
  cells : List cell_context
  slots_with_no_pdsch_space : List Nat
  slots_with_no_pusch_space : List Nat
  dl_attempts_count : Nat
  ul_attempts_count : Nat
  current_slot : Nat
deriving DecidableEq

/-- The initial allocator state: no cells, empty caches, zero counters. -/
def ue_cell_grid_allocator.init : ue_cell_grid_allocator :=
  { cells := []
    slots_with_no_pdsch_space := []
    slots_with_no_pusch_space := []
    dl_attempts_count := 0
    ul_attempts_count := 0
    current_slot := 0 }

/-- has_cell(cell_index): whether the cell was registered via add_cell. -/
def ue_cell_grid_allocator.has_cell (st : ue_cell_grid_allocator)
    (cell_index : Nat) : Bool :=
  st.cells.any (fun c => c.cell_index = cell_index)

/-- add_cell: registers a new cell with its configuration; a cell index that
is already registered is left untouched. -/
def ue_cell_grid_allocator.add_cell (st : ue_cell_grid_allocator)
    (cell_index : Nat) (cfg : cell_config) : ue_cell_grid_allocator :=
  if st.has_cell cell_index then st
  else
    { st with
      cells := st.cells ++ [{ cell_index := cell_index, cfg := cfg,
                              grants := [], pdcch_resv := [], uci_resv := [] }] }

/-- slot_indication(sl): called exactly once per scheduled slot before any
allocation for that slot; advances the rolling grid window (discarding the
state of slots that fell out of the window), clears both no-space caches and
resets the per-slot attempt counters (spec sections 4.2 and 4.3). -/
def ue_cell_grid_allocator.slot_indication (st : ue_cell_grid_allocator)
    (sl : Nat) : ue_cell_grid_allocator :=
  { cells := st.cells.map (fun c =>
      { c with
        grants := c.grants.filter (fun g => sl ≤ g.slot)
        pdcch_resv := c.pdcch_resv.filter (fun s => sl ≤ s)
        uci_resv := c.uci_resv.filter (fun s => sl ≤ s) })
    slots_with_no_pdsch_space := []
    slots_with_no_pusch_space := []
    dl_attempts_count := 0
    ul_attempts_count := 0
    current_slot := sl }

/-- A grant request (spec section 4.3): terminal id, required RB count
(converted upstream from bytes via the configured MCS), cell index and the
symbol range of the data channel allocation. -/
structure ue_grant_request where
  ue_index : Nat
  cell_index : Nat
  nof_rbs : Nat
  sym_start : Nat
  sym_len : Nat
deriving DecidableEq

/-- Whether the candidate grant can be placed without overlapping any grant
already recorded in the cell grid (spec section 4.2: reservation is
idempotent-checked, an occupied position is never silently overlapped). -/
def placement_free (c : cell_context) (g : sched_grant) : Bool :=
  (g.rb_start + g.rb_len ≤ c.cfg.nof_rbs) &&
    c.grants.all (fun h => !(decide (grants_overlap g h)))

/-- Builds the candidate grant for a request placed at a given slot and RB
start position. -/
def mk_grant (req : ue_grant_request) (dir : grant_dir) (slot rb_start : Nat) :
    sched_grant :=
  { ue_index := req.ue_index, cell_index := req.cell_index, slot := slot,
    dir := dir, rb_start := rb_start, rb_len := req.nof_rbs,
    sym_start := req.sym_start, sym_len := req.sym_len }

/-- Searches the lowest RB start position at which the requested RB count
fits into the slot grid without overlap. -/
def find_rb_start (c : cell_context) (req : ue_grant_request)
    (dir : grant_dir) (slot : Nat) : Option Nat :=
  (List.range (c.cfg.nof_rbs + 1)).find?
    (fun r => placement_free c (mk_grant req dir slot r))

/-- Modelled from the spec: the data-channel placement search of section 4.3.
It walks the candidate slots of the look-ahead window in order, skipping any
slot already recorded in the no-space cache, and returns the first slot and
RB start with space; every examined slot without space is appended to the
cache (populated the first time an attempt fails for that slot). -/
def find_space (c : cell_context) (req : ue_grant_request) (dir : grant_dir)
    (cache : List Nat) : List Nat → Option (Nat × Nat) × List Nat
  | [] => (none, cache)
  | s :: rest =>
    if s ∈ cache then find_space c req dir cache rest
    else
      match find_rb_start c req dir s with
      | some r => (some (s, r), cache)
      | none => find_space c req dir (cache ++ [s]) rest

/-- The candidate slots of the look-ahead window starting at the current
slot. -/
def window_slots (cur : Nat) : List Nat :=
  (List.range (scheduler_max_k0 + 1)).map (fun d => cur + d)

/-- Replaces the context of one registered cell. -/
def ue_cell_grid_allocator.set_cell (st : ue_cell_grid_allocator)
    (c : cell_context) : ue_cell_grid_allocator :=
  { st with
    cells := st.cells.map (fun c0 => if c0.cell_index = c.cell_index then c else c0) }

/-- Modelled from the spec: allocate_dl_grant (section 4.3).  An unregistered
cell index is a configuration error returning invalid_params with the state
left untouched.  Otherwise a PDCCH candidate is required at the current slot
(control-plane capacity), and the requested RBs are placed in the first
window slot with space, skipping slots cached as exhausted; every examined
slot without space is recorded in slots_with_no_pdsch_space.  Only on full
success are the PDCCH reservation and the grant committed to the grid and
the attempt counter incremented; a failure commits no reservation. -/
def ue_cell_grid_allocator.allocate_dl_grant (st : ue_cell_grid_allocator)
    (req : ue_grant_request) (_slice_id : Nat) :
    alloc_result × ue_cell_grid_allocator :=
  match st.cells.find? (fun c => c.cell_index = req.cell_index) with
  | none => ({ status := alloc_status.invalid_params, alloc_nof_rbs := 0 }, st)
  | some c =>
    if c.cfg.pdcch_capacity ≤ c.pdcch_resv.count st.current_slot then
      ({ status := alloc_status.no_pdcch_space, alloc_nof_rbs := 0 }, st)
    else
      match find_space c req grant_dir.dl st.slots_with_no_pdsch_space
          (window_slots st.current_slot) with
      | (none, cache) =>
        ({ status := alloc_status.no_rb_space, alloc_nof_rbs := 0 },
         { st with slots_with_no_pdsch_space := cache })
      | (some (s, r), cache) =>
        ({ status := alloc_status.success, alloc_nof_rbs := req.nof_rbs },
         { (st.set_cell
              { c with
                grants := c.grants ++ [mk_grant req grant_dir.dl s r]
                pdcch_resv := c.pdcch_resv ++ [st.current_slot] }) with
           slots_with_no_pdsch_space := cache
           dl_attempts_count := st.dl_attempts_count + 1 })

/-- Modelled from the spec: allocate_ul_grant (section 4.3).  As the DL
variant, and in addition the associated PUCCH/UCI resource for the future
feedback slot must be reserved; it is committed only together with the PDCCH
reservation and the grant. -/
def ue_cell_grid_allocator.allocate_ul_grant (st : ue_cell_grid_allocator)
    (req : ue_grant_request) (_slice_id : Nat) :
    alloc_result × ue_cell_grid_allocator :=
  match st.cells.find? (fun c => c.cell_index = req.cell_index) with
  | none => ({ status := alloc_status.invalid_params, alloc_nof_rbs := 0 }, st)
  | some c =>
    if c.cfg.pdcch_capacity ≤ c.pdcch_resv.count st.current_slot then
      ({ status := alloc_status.no_pdcch_space, alloc_nof_rbs := 0 }, st)
    else if c.cfg.uci_capacity ≤ c.uci_resv.count st.current_slot then
      ({ status := alloc_status.no_uci_space, alloc_nof_rbs := 0 }, st)
    else
      match find_space c req grant_dir.ul st.slots_with_no_pusch_space
          (window_slots st.current_slot) with
      | (none, cache) =>
        ({ status := alloc_status.no_rb_space, alloc_nof_rbs := 0 },
         { st with slots_with_no_pusch_space := cache })
      | (some (s, r), cache) =>
        ({ status := alloc_status.success, alloc_nof_rbs := req.nof_rbs },
         { (st.set_cell
              { c with
                grants := c.grants ++ [mk_grant req grant_dir.ul s r]
                pdcch_resv := c.pdcch_resv ++ [st.current_slot]
                uci_resv := c.uci_resv ++ [st.current_slot] }) with
           slots_with_no_pusch_space := cache
           ul_attempts_count := st.ul_attempts_count + 1 })

/-! ## Slice decorator allocators (src/unnamed/part_003, lines 83-127) -/

/-- The slice candidate state visible to the decorators: the slice id and
the running counter of RBs consumed within the current window (spec
section 3, network slice). -/
structure ran_slice_candidate where
  slice_id : Nat
  consumed_rbs : Nat
deriving DecidableEq

/-- store_grant(alloc_nof_rbs): records the granted RB count against the
in-window usage of the slice. -/
def ran_slice_candidate.store_grant (cand : ran_slice_candidate)
    (rbs : Nat) : ran_slice_candidate :=
  { cand with consumed_rbs := cand.consumed_rbs + rbs }

/-- Shallow embedding of dl_slice_ue_cell_grid_allocator::allocate_dl_grant
(src/unnamed/part_003, lines 91-98): forwards the request to the wrapped
ue_cell_grid_allocator with the slice id of the candidate, and stores the
granted RB count in the candidate only when the result status is success. -/
def dl_slice_allocate_dl_grant (st : ue_cell_grid_allocator)
    (cand : ran_slice_candidate) (req : ue_grant_request) :
    alloc_result × ue_cell_grid_allocator × ran_slice_candidate :=
  let res := st.allocate_dl_grant req cand.slice_id
  if res.1.status = alloc_status.success then
    (res.1, res.2, cand.store_grant res.1.alloc_nof_rbs)
  else
    (res.1, res.2, cand)

/-- Shallow embedding of ul_slice_ue_cell_grid_allocator::allocate_ul_grant
(src/unnamed/part_003, lines 115-122): the UL counterpart. -/
def ul_slice_allocate_ul_grant (st : ue_cell_grid_allocator)
    (cand : ran_slice_candidate) (req : ue_grant_request) :
    alloc_result × ue_cell_grid_allocator × ran_slice_candidate :=
  let res := st.allocate_ul_grant req cand.slice_id
  if res.1.status = alloc_status.success then
    (res.1, res.2, cand.store_grant res.1.alloc_nof_rbs)
  else
    (res.1, res.2, cand)

/-! ## TDD pattern evaluator (spec section 4.1)

The implementation of the TDD pattern evaluator is not part of the source
snapshot (only the TDD scheduler test, src/tests/unittests/scheduler/
scheduler_tdd_test.cpp, exercises it); it is modelled from the
specification below. -/

/-- A TDD sub-pattern: period in slots, number of fully-DL slots, number of
DL symbols in the special slot, number of fully-UL slots, number of UL
symbols in the special slot (the test file writes it as the tuple
(period, DL slots, DL symbols, UL slots, UL symbols)). -/
structure tdd_pattern where
  period : Nat
  nof_dl_slots : Nat
  nof_dl_symbols : Nat
  nof_ul_slots : Nat
  nof_ul_symbols : Nat
deriving DecidableEq

/-- Classification of one slot by the TDD pattern. -/
inductive slot_class
  | fully_dl
  | fully_ul
  | special
deriving DecidableEq

/-- Modelled from the spec: classification of a slot offset inside one
sub-pattern period: the first nof_dl_slots slots are fully DL, the last
nof_ul_slots slots are fully UL, and the slots in between are special
(mixed symbols). -/
def pattern_classify (p : tdd_pattern) (r : Nat) : slot_class :=
  if r < p.nof_dl_slots then slot_class.fully_dl
  else if p.period - p.nof_ul_slots ≤ r then slot_class.fully_ul
  else slot_class.special

/-- The combined period of a TDD configuration with an optional second
sub-pattern: the sum of the sub-pattern periods. -/
def tdd_combined_period (p1 : tdd_pattern) (p2 : Option tdd_pattern) : Nat :=
  p1.period + (match p2 with | none => 0 | some q => q.period)

/-- Modelled from the spec (section 4.1): the TDD pattern evaluator.  The
slot index modulo the combined period selects the sub-pattern: offsets below
the first period are classified by the first sub-pattern, the remaining
offsets by the second. -/
def tdd_classify (p1 : tdd_pattern) (p2 : Option tdd_pattern) (s : Nat) :
    slot_class :=
  let r := s % tdd_combined_period p1 p2
  match p2 with
  | none => pattern_classify p1 r
  | some q => if r < p1.period then pattern_classify p1 r
              else pattern_classify q (r - p1.period)

/-- is_fully_dl_enabled of the cell configuration. -/
def is_fully_dl (p1 : tdd_pattern) (p2 : Option tdd_pattern) (s : Nat) : Bool :=
  tdd_classify p1 p2 s = slot_class.fully_dl

/-- is_fully_ul_enabled of the cell configuration. -/
def is_fully_ul (p1 : tdd_pattern) (p2 : Option tdd_pattern) (s : Nat) : Bool :=
  tdd_classify p1 p2 s = slot_class.fully_ul

/-! ## TDD scheduler scenarios (spec section 8, scheduler_tdd_test.cpp)

The scheduler driving loop (scheduler_test_bench and the production
scheduler behind it) is not part of the source snapshot; the two literal
test scenarios are settled against the model below, which follows the
control flow of spec section 2 and the buffer semantics of section 4.5. -/

/-- The TDD pattern of the instantiated test case: period 10 slots, 6 fully
DL slots, 4 DL symbols, 3 fully UL slots, 4 UL symbols. -/
def test_pattern1 : tdd_pattern :=
  { period := 10, nof_dl_slots := 6, nof_dl_symbols := 4,
    nof_ul_slots := 3, nof_ul_symbols := 4 }

/-- Modelled from the spec: the maximum number of bytes the scheduler drains
from the pending DL buffer with the grants of one fully-DL slot of the 20 MHz
test cell (transport block capacity at the configured MCS; the exact MCS
tables are outside the snapshot, the value is an upper bound consistent with
a 51-PRB cell). -/
def max_dl_slot_bytes : Nat := 8000

/-- Modelled from the spec: the analogous per-slot UL drain bound. -/
def max_ul_slot_bytes : Nat := 8000

/-- Modelled from the spec: the per-slot scheduling result visible to the
scenario checks: the number of grants for the terminal in the checked
direction, and the success status of the slot step (per spec section 7 a
slot step fails only on a configuration error, and the scenario
configuration is valid, so every step reports success). -/
structure scenario_slot_result where
  nof_grants : Nat
  success : Bool
deriving DecidableEq

/-- Modelled from the spec: one DL scheduling step.  If the slot is fully DL
and the terminal has pending bytes, the slot result carries at least one DL
grant for it and the pending count decreases by what the grant carries;
otherwise no DL grant is emitted for it in this slot.  Returns the new
pending count and the slot result. -/
def dl_sched_step (s pending : Nat) : Nat × scenario_slot_result :=
  if is_fully_dl test_pattern1 none s then
    if 0 < pending then (pending - max_dl_slot_bytes, { nof_grants := 1, success := true })
    else (pending, { nof_grants := 0, success := true })
  else (pending, { nof_grants := 0, success := true })

/-- Runs the DL scenario for the given number of slots starting at slot s
and checks, slot by slot, that every per-slot result reports success and
that every fully-DL slot result contains at least one DL grant for the
terminal. -/
def run_dl_scenario (fuel : Nat) (s pending : Nat) : Bool :=
  match fuel with
  | 0 => true
  | fuel + 1 =>
    let step := dl_sched_step s pending
    let slot_ok := step.2.success &&
      (!(is_fully_dl test_pattern1 none s) || decide (0 < step.2.nof_grants))
    slot_ok && run_dl_scenario fuel (s + 1) step.1

/-- Modelled from the spec: one UL scheduling step after the PDCCH warm-up.
A fully-UL slot with a positive pending BSR count yields at least one PUSCH
grant. -/
def ul_sched_step (s pending : Nat) : Nat × scenario_slot_result :=
  if is_fully_ul test_pattern1 none s then
    if 0 < pending then (pending - max_ul_slot_bytes, { nof_grants := 1, success := true })
    else (pending, { nof_grants := 0, success := true })
  else (pending, { nof_grants := 0, success := true })

/-- Runs the UL scenario and checks that every per-slot result reports
success and every fully-UL slot result contains at least one PUSCH grant. -/
def run_ul_scenario (fuel : Nat) (s pending : Nat) : Bool :=
  match fuel with
  | 0 => true
  | fuel + 1 =>
    let step := ul_sched_step s pending
    let slot_ok := step.2.success &&
      (!(is_fully_ul test_pattern1 none s) || decide (0 < step.2.nof_grants))
    slot_ok && run_ul_scenario fuel (s + 1) step.1

/-- The warm-up length of the UL scenario: as many scheduled slots as the
configured number of UL symbols of the first sub-pattern. -/
def ul_warmup_slots : Nat := test_pattern1.nof_ul_symbols

/-- The pending-byte count of both literal scenarios. -/
def scenario_pending_bytes : Nat := 10000000

/-! ## Reachable allocator states and demo fixtures -/

/-- The allocator states reachable from the initial state through the public
operations add_cell, slot_indication, allocate_dl_grant and
allocate_ul_grant. -/
inductive reachable : ue_cell_grid_allocator → Prop
  | init : reachable ue_cell_grid_allocator.init
  | add_cell (st : ue_cell_grid_allocator) (cell_index : Nat) (cfg : cell_config) :
      reachable st → reachable (st.add_cell cell_index cfg)
  | slot_indication (st : ue_cell_grid_allocator) (sl : Nat) :
      reachable st → reachable (st.slot_indication sl)
  | alloc_dl (st : ue_cell_grid_allocator) (req : ue_grant_request) (slice_id : Nat) :
      reachable st → reachable (st.allocate_dl_grant req slice_id).2
  | alloc_ul (st : ue_cell_grid_allocator) (req : ue_grant_request) (slice_id : Nat) :
      reachable st → reachable (st.allocate_ul_grant req slice_id).2

/-- The grid-overlap invariant: in every cell of the allocator, no two
recorded grants overlap in (RB, symbol-range) position for the same
cell/slot/direction. -/
def grid_conflict_free (st : ue_cell_grid_allocator) : Prop :=
  ∀ c ∈ st.cells, c.grants.Pairwise (fun a b => ¬ grants_overlap a b)

/-- A demo cell configuration used by the concrete witnesses. -/
def demo_cfg : cell_config := { nof_rbs := 51, pdcch_capacity := 2, uci_capacity := 2 }

/-- A demo grant request used by the concrete witnesses. -/
def demo_req : ue_grant_request :=
  { ue_index := 0, cell_index := 0, nof_rbs := 5, sym_start := 0, sym_len := 14 }

/-- A demo slice candidate used by the concrete witnesses. -/
def demo_cand : ran_slice_candidate := { slice_id := 1, consumed_rbs := 0 }

/-- A demo allocator state with one registered cell. -/
def demo_alloc_state : ue_cell_grid_allocator :=
  ue_cell_grid_allocator.init.add_cell 0 demo_cfg

/-- The demo cell context registered by demo_alloc_state. -/
def demo_cell : cell_context :=
  { cell_index := 0, cfg := demo_cfg, grants := [], pdcch_resv := [], uci_resv := [] }

/-- The first sub-pattern of the two-pattern TDD configuration listed in the
test file: (6, 3, 4, 2, 4). -/
def test_pattern2a : tdd_pattern :=
  { period := 6, nof_dl_slots := 3, nof_dl_symbols := 4,
    nof_ul_slots := 2, nof_ul_symbols := 4 }

/-- The second sub-pattern of the two-pattern TDD configuration listed in
the test file: (4, 4, 0, 0, 0). -/
def test_pattern2b : tdd_pattern :=
  { period := 4, nof_dl_slots := 4, nof_dl_symbols := 0,
    nof_ul_slots := 0, nof_ul_symbols := 0 }

end srsran

namespace srsran.ofh.neon

/-! ## NEON 9-bit IQ packing (src/lib/ofh/compression/packing_utils_neon.h)

A 128-bit NEON register is embedded as the function from lane number to the
raw unsigned bit pattern of the lane, in little-endian lane order as the
intrinsics view it: 8 16-bit lanes (reg16) or 16 byte lanes (reg8).  The
intrinsics below only ever apply a register to its valid lane numbers. -/

/-- A 128-bit register viewed as 8 16-bit lanes (lane number to pattern). -/
def reg16 : Type := Nat → Nat

/-- A 128-bit register viewed as 16 byte lanes (lane number to pattern). -/
def reg8 : Type := Nat → Nat

/-- The signed 16-bit value of a 16-bit pattern. -/
def toInt16 (u : Nat) : Int :=
  if u % 65536 < 32768 then ((u % 65536 : Nat) : Int)
  else ((u % 65536 : Nat) : Int) - 65536

/-- The 16-bit pattern of a signed value (two-complement truncation). -/
def toUInt16 (z : Int) : Nat := (z % 65536).toNat

/-- vcreate_s16: a 64-bit literal split into 4 16-bit lanes, little endian. -/
def vcreate_s16 (x : Nat) : reg16 := fun i => (x >>> (16 * i)) % 65536

/-- vcreate_u8: a 64-bit literal split into 8 byte lanes, little endian. -/
def vcreate_u8 (x : Nat) : reg8 := fun i => (x >>> (8 * i)) % 256

/-- vcombine_s16: low and high halves concatenated into one register. -/
def vcombine_s16 (lo hi : reg16) : reg16 := fun i =>
  if i < 4 then lo i else hi (i - 4)

/-- vcombine_u8: low and high halves concatenated into one register. -/
def vcombine_u8 (lo hi : reg8) : reg8 := fun i =>
  if i < 8 then lo i else hi (i - 8)

/-- vshlq_s16: per-lane signed shift left by a signed per-lane amount (a
negative amount shifts right arithmetically). -/
def vshlq_s16 (r s : reg16) : reg16 := fun i =>
  if 0 ≤ toInt16 (s i) then (r i <<< (toInt16 (s i)).toNat) % 65536
  else toUInt16 (toInt16 (r i) >>> (-toInt16 (s i)).toNat)

/-- vandq_s16: per-lane bitwise and. -/
def vandq_s16 (a b : reg16) : reg16 := fun i => a i &&& b i

/-- vreinterpretq_s8_s16: the same 128 bits viewed as byte lanes. -/
def vreinterpretq_s8_s16 (r : reg16) : reg8 := fun j =>
  (r (j / 2) >>> (8 * (j % 2))) % 256

/-- vqtbl1q_s8: table lookup over one register; an out-of-range index yields
zero. -/
def vqtbl1q_s8 (t idx : reg8) : reg8 := fun j =>
  if idx j < 16 then t (idx j) else 0

/-- vorrq_u8: per-lane bitwise or. -/
def vorrq_u8 (a b : reg8) : reg8 := fun j => a j ||| b j

/-- The shift mask vcombine_s16(vcreate_s16(0x0004000500060007),
vcreate_s16(0x0000000100020003)) of pack_neon_register_9b_big_endian. -/
def pack_shift_mask : reg16 :=
  vcombine_s16 (vcreate_s16 0x0004000500060007) (vcreate_s16 0x0000000100020003)

/-- The 9-bit field mask vcombine_s16(vcreate_s16(0x1ff03fe07fc0ff80),
vcreate_s16(0x01ff03fe07fc0ff8)). -/
def pack_field_mask : reg16 :=
  vcombine_s16 (vcreate_s16 0x1ff03fe07fc0ff80) (vcreate_s16 0x01ff03fe07fc0ff8)

/-- The first shuffle index register of pack_neon_register_9b_big_endian. -/
def pack_tbl_idx0 : reg8 :=
  vcombine_u8 (vcreate_u8 0x0c0a0806040200ff) (vcreate_u8 0xffffffffffffff0e)

/-- The second shuffle index register of pack_neon_register_9b_big_endian. -/
def pack_tbl_idx1 : reg8 :=
  vcombine_u8 (vcreate_u8 0x0f0d0b0907050301) (vcreate_u8 0xffffffffffffffff)

/-- pack_neon_register_9b_big_endian (packing_utils_neon.h, lines 38-69):
shifts the eight 16-bit IQ samples to align their 9-bit fields, masks the
fields, shuffles the bytes into two registers and ors them, producing the
72 packed bits in the first 9 bytes of the result. -/
def pack_neon_register_9b_big_endian (reg : reg16) : reg8 :=
  let iq_shl := vandq_s16 (vshlq_s16 reg pack_shift_mask) pack_field_mask
  let iq_shl_s8 := vreinterpretq_s8_s16 iq_shl
  let tmp_iq_0 := vqtbl1q_s8 iq_shl_s8 pack_tbl_idx0
  let tmp_iq_1 := vqtbl1q_s8 iq_shl_s8 pack_tbl_idx1
  vorrq_u8 tmp_iq_0 tmp_iq_1

/-- The 9 bytes stored per register by pack_prb_9b_big_endian: vst1_u64 of
the low 8 bytes followed by vst1q_lane_u8 of byte 8. -/
def stored_bytes (p : reg8) : List Nat :=
  [p 0, p 1, p 2, p 3, p 4, p 5, p 6, p 7, p 8]

/-- pack_prb_9b_big_endian (packing_utils_neon.h, lines 77-105): packs the
three registers holding the 24 16-bit IQ samples of one PRB into 27 bytes,
storing 9 bytes per packed register. -/
def pack_prb_9b_big_endian (regs : Nat → reg16) : List Nat :=
  stored_bytes (pack_neon_register_9b_big_endian (regs 0)) ++
  stored_bytes (pack_neon_register_9b_big_endian (regs 1)) ++
  stored_bytes (pack_neon_register_9b_big_endian (regs 2))

/-- vld1q_u8 at a byte offset of the packed buffer (bytes past the end of
the buffer read as zero in this embedding; the roundtrip only reads bytes
the buffer holds). -/
def vld1q_u8 (data : List Nat) (off : Nat) : reg8 := fun i =>
  data.getD (off + i) 0

/-- vdupq_n_u8: all byte lanes set to one value. -/
def vdupq_n_u8 (x : Nat) : reg8 := fun _ => x

/-- vextq_u8 with immediate n: bytes n..n+15 of the concatenation of the two
registers. -/
def vextq_u8 (a b : reg8) (n : Nat) : reg8 := fun i =>
  if i + n < 16 then a (i + n) else b (i + n - 16)

/-- vqtbl2q_u8: table lookup over a pair of registers (a 32-byte table); an
out-of-range index yields zero. -/
def vqtbl2q_u8 (t0 t1 idx : reg8) : reg8 := fun j =>
  if idx j < 16 then t0 (idx j)
  else if idx j < 32 then t1 (idx j - 16) else 0

/-- vreinterpretq_u16_u8: the same 128 bits viewed as 16-bit lanes. -/
def vreinterpretq_u16_u8 (r : reg8) : reg16 := fun i =>
  r (2 * i) + 256 * r (2 * i + 1)

/-- vshlq_u16: per-lane unsigned shift left by a signed per-lane amount (a
negative amount shifts right logically). -/
def vshlq_u16 (r s : reg16) : reg16 := fun i =>
  if 0 ≤ toInt16 (s i) then (r i <<< (toInt16 (s i)).toNat) % 65536
  else r i >>> (-toInt16 (s i)).toNat

/-- vshrq_n_s16: per-lane arithmetic shift right by an immediate. -/
def vshrq_n_s16 (r : reg16) (n : Nat) : reg16 := fun i =>
  toUInt16 (toInt16 (r i) >>> n)

/-- The first duplication shuffle of unpack_prb_9b_big_endian. -/
def unpack_tbl_idx0 : reg8 :=
  vcombine_u8 (vcreate_u8 0x0304020301020001) (vcreate_u8 0x0708060705060405)

/-- The second duplication shuffle of unpack_prb_9b_big_endian. -/
def unpack_tbl_idx1 : reg8 :=
  vcombine_u8 (vcreate_u8 0x0c0d0b0c0a0b090a) (vcreate_u8 0x10110f100e0f0d0e)

/-- The third duplication shuffle of unpack_prb_9b_big_endian. -/
def unpack_tbl_idx2 : reg8 :=
  vcombine_u8 (vcreate_u8 0x1516141513141213) (vcreate_u8 0x191a181917181617)

/-- The per-lane left-shift amounts vcombine_s16(vcreate_s16(0x0003000200010000),
vcreate_s16(0x0007000600050004)) of unpack_prb_9b_big_endian. -/
def unpack_shl_mask : reg16 :=
  vcombine_s16 (vcreate_s16 0x0003000200010000) (vcreate_s16 0x0007000600050004)

/-- The 16-bit lanes produced for one duplication shuffle: align each packed
9-bit field to the 16-bit boundary, then shift right arithmetically by 7. -/
def unpack_reg (tmp : reg8) : reg16 :=
  vshrq_n_s16 (vshlq_u16 (vreinterpretq_u16_u8 tmp) unpack_shl_mask) 7

/-- unpack_prb_9b_big_endian (packing_utils_neon.h, lines 155-190): loads the
27 packed bytes into two registers (the second loaded from byte 11 and
shifted down by 5 bytes), duplicates the bytes so that every lane holds the
two bytes covering one 9-bit field, aligns, sign extends and stores the 24
16-bit samples. -/
def unpack_prb_9b_big_endian (packed : List Nat) : List Int :=
  let val0 := vld1q_u8 packed 0
  let val1 := vextq_u8 (vld1q_u8 packed 11) (vdupq_n_u8 0) 5
  let tmp0 := vqtbl2q_u8 val0 val1 unpack_tbl_idx0
  let tmp1 := vqtbl2q_u8 val0 val1 unpack_tbl_idx1
  let tmp2 := vqtbl2q_u8 val0 val1 unpack_tbl_idx2
  (List.ofFn fun i : Fin 8 => toInt16 (unpack_reg tmp0 i.val)) ++
  (List.ofFn fun i : Fin 8 => toInt16 (unpack_reg tmp1 i.val)) ++
  (List.ofFn fun i : Fin 8 => toInt16 (unpack_reg tmp2 i.val))

/-- The three input registers of pack_prb_9b_big_endian holding the 24
signed 16-bit samples of the PRB (8 consecutive samples per register, one
per 16-bit lane). -/
def regs_of_samples (samples : List Int) : Nat → reg16 := fun g k =>
  toUInt16 (samples.getD (8 * g + k) 0)

/-- A concrete PRB of 24 signed samples in the 9-bit range, used to witness
the packing round-trip at a concrete input. -/
def c9_demo_samples : List Int :=
  [-256, 255, 0, -1, 1, -128, 127, 64, -250, -229, -208, 100, -64, 33, -2, 2,
   5, -5, 17, -17, 200, -200, 111, -111]

end srsran.ofh.neon

namespace srsran.ofh.neon

theorem and_shl_distrib (a b s : Nat) : (a <<< s) &&& (b <<< s) = (a &&& b) <<< s := by
  apply Nat.eq_of_testBit_eq
  intro j
  simp only [Nat.testBit_and, Nat.testBit_shiftLeft]
  cases decide (j ≥ s) <;> simp

theorem lane_field (x s : Nat) (hs : s ≤ 7) :
    ((x <<< s) % 65536) &&& (511 <<< s) = (x % 512) <<< s := by
  have h16 : (65536 : Nat) = 2 ^ (16 - s) * 2 ^ s := by
    have h : 16 - s + s = 16 := by omega
    rw [← pow_add, h]
    norm_num
  rw [Nat.shiftLeft_eq, h16, Nat.mul_mod_mul_right, ← Nat.shiftLeft_eq, and_shl_distrib]
  congr 1
  rw [show (511 : Nat) = 2 ^ 9 - 1 by norm_num, Nat.and_pow_two_sub_one_eq_mod,
    show (512 : Nat) = 2 ^ 9 by norm_num]
  exact Nat.mod_mod_of_dvd x (pow_dvd_pow 2 (by omega))

theorem masked_lane (x : reg16) (k : Nat) (hk : k < 8) :
    vandq_s16 (vshlq_s16 x pack_shift_mask) pack_field_mask k = (x k % 512) <<< (7 - k) := by
  have hs : pack_shift_mask k = 7 - k := by interval_cases k <;> rfl
  have hm : pack_field_mask k = 511 <<< (7 - k) := by interval_cases k <;> rfl
  simp only [vandq_s16, vshlq_s16, hs, hm]
  have hv : (7 - k) % 65536 = 7 - k := by omega
  have hnn : 0 ≤ toInt16 (7 - k) := by
    unfold toInt16
    rw [hv]
    split <;> omega
  rw [if_pos hnn]
  have htn : (toInt16 (7 - k)).toNat = 7 - k := by
    unfold toInt16
    rw [hv]
    split <;> omega
  rw [htn]
  exact lane_field (x k) (7 - k) (by omega)

theorem or_low_bits (a b n : Nat) (hb : b < 2 ^ n) : (a * 2 ^ n) ||| b = a * 2 ^ n + b := by
  rw [Nat.mul_comm]
  exact (Nat.mul_add_lt_is_or hb a).symm

theorem pack_byte_mid (u0 u1 j : Nat) (h1 : 1 ≤ j) (h7 : j ≤ 7) (hu1 : u1 < 512) :
    ((u0 * 2 ^ (8 - j)) % 256) ||| ((u1 * 2 ^ (7 - j) / 256) % 256)
      = (u0 % 2 ^ j) * 2 ^ (8 - j) + u1 / 2 ^ (j + 1) := by
  have h256 : (256 : Nat) = 2 ^ j * 2 ^ (8 - j) := by
    have h : j + (8 - j) = 8 := by omega
    rw [← pow_add, h]
    norm_num
  have hlo : (u0 * 2 ^ (8 - j)) % 256 = (u0 % 2 ^ j) * 2 ^ (8 - j) := by
    rw [h256, Nat.mul_mod_mul_right]
  have hdivlt : u1 / 2 ^ (j + 1) < 2 ^ (8 - j) := by
    rw [Nat.div_lt_iff_lt_mul (Nat.two_pow_pos (j + 1))]
    calc u1 < 512 := hu1
    _ ≤ 2 ^ (8 - j) * 2 ^ (j + 1) := by
        rw [← pow_add]
        have h : 8 - j + (j + 1) = 9 := by omega
        rw [h]
        norm_num
  have e8 : j + 1 + (7 - j) = 8 := by omega
  have hhi : (u1 * 2 ^ (7 - j) / 256) % 256 = u1 / 2 ^ (j + 1) := by
    rw [show (256 : Nat) = 2 ^ (j + 1) * 2 ^ (7 - j) by rw [← pow_add, e8]; norm_num]
    rw [Nat.mul_div_mul_right _ _ (Nat.two_pow_pos (7 - j))]
    refine Nat.mod_eq_of_lt (lt_of_lt_of_le hdivlt ?_)
    have h28 : (2 : Nat) ^ (8 - j) ≤ 2 ^ 8 := Nat.pow_le_pow_right (by norm_num) (by omega)
    norm_num at h28
    have h8 : (2 : Nat) ^ (j + 1) * 2 ^ (7 - j) = 256 := by
      rw [← pow_add, e8]
      norm_num
    omega
  rw [hlo, hhi]
  exact or_low_bits _ _ _ hdivlt

set_option maxHeartbeats 1000000 in
theorem pack_register_bytes (x : reg16) :
    stored_bytes (pack_neon_register_9b_big_endian x) =
      [(x 0 % 512) / 2,
       (x 0 % 512) % 2 * 128 + (x 1 % 512) / 4,
       (x 1 % 512) % 4 * 64 + (x 2 % 512) / 8,
       (x 2 % 512) % 8 * 32 + (x 3 % 512) / 16,
       (x 3 % 512) % 16 * 16 + (x 4 % 512) / 32,
       (x 4 % 512) % 32 * 8 + (x 5 % 512) / 64,
       (x 5 % 512) % 64 * 4 + (x 6 % 512) / 128,
       (x 6 % 512) % 128 * 2 + (x 7 % 512) / 256,
       (x 7 % 512) % 256] := by
  simp only [stored_bytes, pack_neon_register_9b_big_endian, vorrq_u8, vqtbl1q_s8,
    vreinterpretq_s8_s16, pack_tbl_idx0, pack_tbl_idx1, vcombine_u8, vcreate_u8]
  simp [masked_lane, Nat.shiftLeft_eq, Nat.shiftRight_eq_div_pow]
  refine ⟨?_, ?_, ?_, ?_, ?_, ?_, ?_, ?_⟩
  · omega
  · simpa using pack_byte_mid (x 0 % 512) (x 1 % 512) 1 (by norm_num) (by norm_num)
      (Nat.mod_lt _ (by norm_num))
  · simpa using pack_byte_mid (x 1 % 512) (x 2 % 512) 2 (by norm_num) (by norm_num)
      (Nat.mod_lt _ (by norm_num))
  · simpa using pack_byte_mid (x 2 % 512) (x 3 % 512) 3 (by norm_num) (by norm_num)
      (Nat.mod_lt _ (by norm_num))
  · simpa using pack_byte_mid (x 3 % 512) (x 4 % 512) 4 (by norm_num) (by norm_num)
      (Nat.mod_lt _ (by norm_num))
  · simpa using pack_byte_mid (x 4 % 512) (x 5 % 512) 5 (by norm_num) (by norm_num)
      (Nat.mod_lt _ (by norm_num))
  · simpa using pack_byte_mid (x 5 % 512) (x 6 % 512) 6 (by norm_num) (by norm_num)
      (Nat.mod_lt _ (by norm_num))
  · simpa using pack_byte_mid (x 6 % 512) (x 7 % 512) 7 (by norm_num) (by norm_num)
      (Nat.mod_lt _ (by norm_num))

end srsran.ofh.neon

namespace srsran.ofh.neon

theorem asr7_roundtrip (p : Nat) (v : Int) (hp : p < 65536)
    (hu : ((p / 128 : Nat) : Int) = v % 512) (hv1 : -256 ≤ v) (hv2 : v ≤ 255) :
    toInt16 (toUInt16 (toInt16 p >>> (7 : Nat))) = v := by
  by_cases hcase : p < 32768
  · have h1 : toInt16 p = (p : Int) := by
      unfold toInt16
      rw [Nat.mod_eq_of_lt hp, if_pos hcase]
    have h2 : (p : Int) >>> (7 : Nat) = ((p >>> 7 : Nat) : Int) := rfl
    rw [h1, h2, Nat.shiftRight_eq_div_pow, show (2 : Nat) ^ 7 = 128 from rfl]
    have hu2 : p / 128 < 256 := by omega
    have h3 : toUInt16 ((p / 128 : Nat) : Int) = p / 128 := by
      unfold toUInt16
      omega
    rw [h3]
    unfold toInt16
    rw [Nat.mod_eq_of_lt (by omega), if_pos (by omega)]
    omega
  · have h1 : toInt16 p = Int.negSucc (65535 - p) := by
      unfold toInt16
      rw [Nat.mod_eq_of_lt hp, if_neg (by omega), Int.negSucc_eq]
      omega
    have h2 : Int.negSucc (65535 - p) >>> (7 : Nat) = Int.negSucc ((65535 - p) >>> 7) := rfl
    rw [h1, h2, Nat.shiftRight_eq_div_pow, show (2 : Nat) ^ 7 = 128 from rfl]
    have h3 : toUInt16 (Int.negSucc ((65535 - p) / 128)) = 65535 - (65535 - p) / 128 := by
      unfold toUInt16
      rw [Int.negSucc_eq]
      omega
    rw [h3]
    unfold toInt16
    rw [Nat.mod_eq_of_lt (by omega), if_neg (by omega)]
    omega

end srsran.ofh.neon

namespace srsran.ofh.neon

theorem unpack_reg_eval (tmp : reg8) (k : Nat) (hk : k < 8) :
    unpack_reg tmp k =
      toUInt16 (toInt16 (((tmp (2 * k) + 256 * tmp (2 * k + 1)) <<< k) % 65536) >>> (7 : Nat)) := by
  unfold unpack_reg vshrq_n_s16 vshlq_u16 vreinterpretq_u16_u8
  have h1 : unpack_shl_mask k = k := by interval_cases k <;> rfl
  rw [h1]
  have h2 : toInt16 k = (k : Int) := by
    unfold toInt16
    rw [Nat.mod_eq_of_lt (by omega), if_pos (by omega)]
  rw [h2, if_pos (by omega)]
  simp only [Int.toNat_natCast]

theorem qtbl2_eval (packed : List Nat) (idx : reg8) (j : Nat) (h : idx j < 27) :
    vqtbl2q_u8 (vld1q_u8 packed 0) (vextq_u8 (vld1q_u8 packed 11) (vdupq_n_u8 0) 5) idx j
      = packed.getD (idx j) 0 := by
  unfold vqtbl2q_u8 vld1q_u8 vextq_u8 vdupq_n_u8
  by_cases h16 : idx j < 16
  · rw [if_pos h16]
    norm_num
  · rw [if_neg h16, if_pos (by omega), if_pos (by omega)]
    simp only []
    rw [show 11 + (idx j - 16 + 5) = idx j by omega]

end srsran.ofh.neon

namespace srsran.ofh.neon

theorem getD_of_lt (l : List Int) (i : Nat) (h : i < l.length) : l.getD i 0 = l[i] := by
  simp [List.getD_eq_getElem?_getD, List.getElem?_eq_getElem h]

set_option maxHeartbeats 4000000 in
/-- C9: round-trip of NEON 9-bit IQ packing.  For every sequence of 24
signed 16-bit IQ samples each representable in 9 bits (value between -256
and 255), packing them with pack_prb_9b_big_endian into 27 bytes and then
unpacking those bytes with unpack_prb_9b_big_endian yields exactly the
original 24 samples. -/
theorem c9_neon_9b_pack_unpack_roundtrip (l : List Int) (hlen : l.length = 24)
    (hr : ∀ z ∈ l, -256 ≤ z ∧ z ≤ 255) :
    unpack_prb_9b_big_endian (pack_prb_9b_big_endian (regs_of_samples l)) = l := by
  have hm : ∀ m, m < 24 → -256 ≤ l.getD m 0 ∧ l.getD m 0 ≤ 255 := by
    intro m hmlt
    rw [getD_of_lt l m (by omega)]
    exact hr _ (List.getElem_mem _)
  have hpack : pack_prb_9b_big_endian (regs_of_samples l) =
      [toUInt16 (l.getD 0 0) % 512 / 2,
       toUInt16 (l.getD 0 0) % 512 % 2 * 128 + toUInt16 (l.getD 1 0) % 512 / 4,
       toUInt16 (l.getD 1 0) % 512 % 4 * 64 + toUInt16 (l.getD 2 0) % 512 / 8,
       toUInt16 (l.getD 2 0) % 512 % 8 * 32 + toUInt16 (l.getD 3 0) % 512 / 16,
       toUInt16 (l.getD 3 0) % 512 % 16 * 16 + toUInt16 (l.getD 4 0) % 512 / 32,
       toUInt16 (l.getD 4 0) % 512 % 32 * 8 + toUInt16 (l.getD 5 0) % 512 / 64,
       toUInt16 (l.getD 5 0) % 512 % 64 * 4 + toUInt16 (l.getD 6 0) % 512 / 128,
       toUInt16 (l.getD 6 0) % 512 % 128 * 2 + toUInt16 (l.getD 7 0) % 512 / 256,
       toUInt16 (l.getD 7 0) % 512 % 256,
       toUInt16 (l.getD 8 0) % 512 / 2,
       toUInt16 (l.getD 8 0) % 512 % 2 * 128 + toUInt16 (l.getD 9 0) % 512 / 4,
       toUInt16 (l.getD 9 0) % 512 % 4 * 64 + toUInt16 (l.getD 10 0) % 512 / 8,
       toUInt16 (l.getD 10 0) % 512 % 8 * 32 + toUInt16 (l.getD 11 0) % 512 / 16,
       toUInt16 (l.getD 11 0) % 512 % 16 * 16 + toUInt16 (l.getD 12 0) % 512 / 32,
       toUInt16 (l.getD 12 0) % 512 % 32 * 8 + toUInt16 (l.getD 13 0) % 512 / 64,
       toUInt16 (l.getD 13 0) % 512 % 64 * 4 + toUInt16 (l.getD 14 0) % 512 / 128,
       toUInt16 (l.getD 14 0) % 512 % 128 * 2 + toUInt16 (l.getD 15 0) % 512 / 256,
       toUInt16 (l.getD 15 0) % 512 % 256,
       toUInt16 (l.getD 16 0) % 512 / 2,
       toUInt16 (l.getD 16 0) % 512 % 2 * 128 + toUInt16 (l.getD 17 0) % 512 / 4,
       toUInt16 (l.getD 17 0) % 512 % 4 * 64 + toUInt16 (l.getD 18 0) % 512 / 8,
       toUInt16 (l.getD 18 0) % 512 % 8 * 32 + toUInt16 (l.getD 19 0) % 512 / 16,
       toUInt16 (l.getD 19 0) % 512 % 16 * 16 + toUInt16 (l.getD 20 0) % 512 / 32,
       toUInt16 (l.getD 20 0) % 512 % 32 * 8 + toUInt16 (l.getD 21 0) % 512 / 64,
       toUInt16 (l.getD 21 0) % 512 % 64 * 4 + toUInt16 (l.getD 22 0) % 512 / 128,
       toUInt16 (l.getD 22 0) % 512 % 128 * 2 + toUInt16 (l.getD 23 0) % 512 / 256,
       toUInt16 (l.getD 23 0) % 512 % 256] := by
    simp only [pack_prb_9b_big_endian, pack_register_bytes, regs_of_samples]
    norm_num
  apply List.ext_getElem
  · simp [unpack_prb_9b_big_endian, hlen]
  intro i hi1 hi2
  have hi : i < 24 := by
    have := hi2
    omega
  have hvb := hr _ (List.getElem_mem hi2)
  have hgetd : l.getD i 0 = l[i] := getD_of_lt l i (by omega)
  interval_cases i <;>
  · simp only [unpack_prb_9b_big_endian]
    simp
    rw [unpack_reg_eval _ _ (by norm_num), qtbl2_eval _ _ _ (by decide),
      qtbl2_eval _ _ _ (by decide)]
    simp [hpack, unpack_tbl_idx0, unpack_tbl_idx1, unpack_tbl_idx2, vcombine_u8, vcreate_u8,
      -List.getD_eq_getElem?_getD]
    apply asr7_roundtrip
    · omega
    · rw [← hgetd]
      simp only [toUInt16, Nat.shiftLeft_eq]
      omega
    · exact hvb.1
    · exact hvb.2

end srsran.ofh.neon

namespace srsran.ofh.neon

/-- Witness for C9: the round-trip theorem applied to a concrete PRB of 24
in-range samples. -/
theorem c9_neon_9b_pack_unpack_roundtrip_witness :
    unpack_prb_9b_big_endian (pack_prb_9b_big_endian (regs_of_samples c9_demo_samples))
      = c9_demo_samples :=
  c9_neon_9b_pack_unpack_roundtrip c9_demo_samples (by rfl) (by decide)

end srsran.ofh.neon

namespace srsran

/-- C10 (amended): a default-constructed bounded_integer holds the
Integer-converted sentinel MAX_VALUE + 1; whenever MAX_VALUE + 1 is
representable in Integer (so the conversion is the identity on it), the
default value is MAX_VALUE + 1 and is_valid is false for it.  Construction
from, or assignment of, a value v first converts v to Integer (a truncating
conversion): when the converted value lies within the bounds the assertion
passes, the converted value is stored and thereafter is_valid is true -- in
particular an out-of-bounds v whose truncation lands inside the bounds is
silently stored -- and when the converted value is outside the bounds, the
bounds assertion triggers instead of storing it, both for the converting
constructor and for assignment. -/
theorem c10_bounded_integer_validity (It : cpp_int_type) (MIN_VALUE MAX_VALUE : Int) :
    (bounded_integer.default_ctor It MIN_VALUE MAX_VALUE).value
        = It.conv (MAX_VALUE + 1) ∧
    (It.conv (MAX_VALUE + 1) = MAX_VALUE + 1 →
      (bounded_integer.default_ctor It MIN_VALUE MAX_VALUE).is_valid = false) ∧
    (∀ v : Int, MIN_VALUE ≤ It.conv v → It.conv v ≤ MAX_VALUE →
      bounded_integer.make It MIN_VALUE MAX_VALUE v = some { value := It.conv v } ∧
      (∀ b : bounded_integer It MIN_VALUE MAX_VALUE,
        bounded_integer.assign It MIN_VALUE MAX_VALUE b v = some { value := It.conv v }) ∧
      ∀ b : bounded_integer It MIN_VALUE MAX_VALUE,
        bounded_integer.make It MIN_VALUE MAX_VALUE v = some b → b.is_valid = true) ∧
    (∀ v : Int, ¬(MIN_VALUE ≤ It.conv v ∧ It.conv v ≤ MAX_VALUE) →
      bounded_integer.make It MIN_VALUE MAX_VALUE v = none ∧
      ∀ b : bounded_integer It MIN_VALUE MAX_VALUE,
        bounded_integer.assign It MIN_VALUE MAX_VALUE b v = none) := by
  refine ⟨rfl, ?_, ?_, ?_⟩
  · intro hrep
    simp only [bounded_integer.default_ctor, bounded_integer.is_valid, hrep]
    simp only [decide_eq_false_iff_not]
    intro hcon
    omega
  · intro v h1 h2
    refine ⟨?_, ?_, ?_⟩
    · simp [bounded_integer.make, bounded_integer.assert_bounds, h1, h2]
    · intro b
      simp [bounded_integer.assign, bounded_integer.assert_bounds, h1, h2]
    · intro b hb
      simp [bounded_integer.make, bounded_integer.assert_bounds, h1, h2] at hb
      simp [bounded_integer.is_valid, ← hb, h1, h2]
  · intro v hv
    constructor
    · simp only [bounded_integer.make, bounded_integer.assert_bounds]
      rw [if_neg (by simpa using hv)]
    · intro b
      simp only [bounded_integer.assign, bounded_integer.assert_bounds]
      rw [if_neg (by simpa using hv)]

/-- Counterexample to C10 as stated: for the uint8_t instantiation with
bounds 0 and 31 (sch_mcs_index), the value 260 lies outside the bounds, yet
construction does not trigger the bounds assertion: the integral conversion
to uint8_t wraps 260 to 4, the assert passes on 4, and 4 is silently stored
as a valid value. -/
theorem c10_bounded_integer_validity_counterexample :
    ¬((0 : Int) ≤ 260 ∧ (260 : Int) ≤ 31) ∧
    bounded_integer.make uint8_type 0 31 260 = some { value := 4 } ∧
    (bounded_integer.mk 4 : bounded_integer uint8_type 0 31).is_valid = true := by
  decide

/-- Witness for C10 (amended), at the sch_mcs_index instantiation (uint8_t,
bounds 0 and 31): the sentinel 32 is representable, so the default value is
invalid; 5 converts to itself, is accepted and valid; 40 converts to itself,
stays outside the bounds and is rejected by the assertion. -/
theorem c10_bounded_integer_validity_witness :
    (bounded_integer.default_ctor uint8_type 0 31).is_valid = false ∧
    bounded_integer.make uint8_type 0 31 5 = some { value := 5 } ∧
    (bounded_integer.mk 5 : bounded_integer uint8_type 0 31).is_valid = true ∧
    bounded_integer.make uint8_type 0 31 40 = none := by
  have h := c10_bounded_integer_validity uint8_type 0 31
  have h5 := (h.2.2.1 5 (by decide) (by decide)).1
  rw [show uint8_type.conv 5 = 5 from by decide] at h5
  refine ⟨h.2.1 (by decide), h5, ?_, (h.2.2.2 40 (by decide)).1⟩
  exact (h.2.2.1 5 (by decide) (by decide)).2.2 _ (h.2.2.1 5 (by decide) (by decide)).1

/-- C2: the slice decorators are pure decorators.  For every allocator
state, slice candidate and grant request, dl_slice_allocate_dl_grant (and
symmetrically ul_slice_allocate_ul_grant) returns exactly the result and
state of the wrapped ue_cell_grid_allocator call made with the slice id of
the candidate, calls store_grant with the granted RB count exactly when the
wrapped result status is success, leaves the candidate unchanged when the
wrapped call fails, and never reports success when the wrapped call
failed. -/
theorem c2_slice_decorator_pure (st : ue_cell_grid_allocator)
    (cand : ran_slice_candidate) (req : ue_grant_request) :
    ((dl_slice_allocate_dl_grant st cand req).1 = (st.allocate_dl_grant req cand.slice_id).1 ∧
     (dl_slice_allocate_dl_grant st cand req).2.1 = (st.allocate_dl_grant req cand.slice_id).2 ∧
     ((st.allocate_dl_grant req cand.slice_id).1.status = alloc_status.success →
       (dl_slice_allocate_dl_grant st cand req).2.2 =
         cand.store_grant (st.allocate_dl_grant req cand.slice_id).1.alloc_nof_rbs) ∧
     ((st.allocate_dl_grant req cand.slice_id).1.status ≠ alloc_status.success →
       (dl_slice_allocate_dl_grant st cand req).2.2 = cand) ∧
     ((dl_slice_allocate_dl_grant st cand req).1.status = alloc_status.success →
       (st.allocate_dl_grant req cand.slice_id).1.status = alloc_status.success)) ∧
    ((ul_slice_allocate_ul_grant st cand req).1 = (st.allocate_ul_grant req cand.slice_id).1 ∧
     (ul_slice_allocate_ul_grant st cand req).2.1 = (st.allocate_ul_grant req cand.slice_id).2 ∧
     ((st.allocate_ul_grant req cand.slice_id).1.status = alloc_status.success →
       (ul_slice_allocate_ul_grant st cand req).2.2 =
         cand.store_grant (st.allocate_ul_grant req cand.slice_id).1.alloc_nof_rbs) ∧
     ((st.allocate_ul_grant req cand.slice_id).1.status ≠ alloc_status.success →
       (ul_slice_allocate_ul_grant st cand req).2.2 = cand) ∧
     ((ul_slice_allocate_ul_grant st cand req).1.status = alloc_status.success →
       (st.allocate_ul_grant req cand.slice_id).1.status = alloc_status.success)) := by
  constructor
  · unfold dl_slice_allocate_dl_grant
    by_cases h : (st.allocate_dl_grant req cand.slice_id).1.status = alloc_status.success <;>
      simp [h]
  · unfold ul_slice_allocate_ul_grant
    by_cases h : (st.allocate_ul_grant req cand.slice_id).1.status = alloc_status.success <;>
      simp [h]

end srsran

namespace srsran

/-- C7: a grant request naming a cell index that was never registered via
add_cell returns the distinct typed outcome invalid_params (never success
and never one of the capacity failures), for both allocate_dl_grant and
allocate_ul_grant, and the allocator state is unchanged by the call. -/
theorem c7_unknown_cell_typed_failure (st : ue_cell_grid_allocator)
    (req : ue_grant_request) (slice_id : Nat)
    (h : st.has_cell req.cell_index = false) :
    (st.allocate_dl_grant req slice_id).1.status = alloc_status.invalid_params ∧
    (st.allocate_dl_grant req slice_id).2 = st ∧
    (st.allocate_ul_grant req slice_id).1.status = alloc_status.invalid_params ∧
    (st.allocate_ul_grant req slice_id).2 = st ∧
    alloc_status.invalid_params ≠ alloc_status.success ∧
    alloc_status.invalid_params ≠ alloc_status.no_pdcch_space ∧
    alloc_status.invalid_params ≠ alloc_status.no_uci_space ∧
    alloc_status.invalid_params ≠ alloc_status.no_rb_space := by
  have hfind : st.cells.find? (fun c => c.cell_index = req.cell_index) = none := by
    rw [List.find?_eq_none]
    intro c hc
    unfold ue_cell_grid_allocator.has_cell at h
    rw [List.any_eq_false] at h
    exact fun hp => (h c hc) hp
  unfold ue_cell_grid_allocator.allocate_dl_grant ue_cell_grid_allocator.allocate_ul_grant
  rw [hfind]
  simp

/-- Witness for C7: the initial allocator has no cells, so a request for
cell 0 fails with invalid_params and leaves the state untouched. -/
theorem c7_unknown_cell_typed_failure_witness :
    (ue_cell_grid_allocator.init.allocate_dl_grant demo_req 1).1.status
        = alloc_status.invalid_params ∧
    (ue_cell_grid_allocator.init.allocate_dl_grant demo_req 1).2 = ue_cell_grid_allocator.init ∧
    (ue_cell_grid_allocator.init.allocate_ul_grant demo_req 1).1.status
        = alloc_status.invalid_params ∧
    (ue_cell_grid_allocator.init.allocate_ul_grant demo_req 1).2 = ue_cell_grid_allocator.init := by
  have h := c7_unknown_cell_typed_failure ue_cell_grid_allocator.init demo_req 1 (by decide)
  exact ⟨h.1, h.2.1, h.2.2.1, h.2.2.2.1⟩



theorem alloc_dl_cases (st : ue_cell_grid_allocator) (req : ue_grant_request) (slice_id : Nat) :
    (st.allocate_dl_grant req slice_id).1.status = alloc_status.success ∨
    (st.allocate_dl_grant req slice_id).2.cells = st.cells := by
  unfold ue_cell_grid_allocator.allocate_dl_grant
  split
  · right
    rfl
  · split
    · right
      rfl
    · split
      · right
        rfl
      · left
        rfl

theorem alloc_ul_cases (st : ue_cell_grid_allocator) (req : ue_grant_request) (slice_id : Nat) :
    (st.allocate_ul_grant req slice_id).1.status = alloc_status.success ∨
    (st.allocate_ul_grant req slice_id).2.cells = st.cells := by
  unfold ue_cell_grid_allocator.allocate_ul_grant
  split
  · right
    rfl
  · split
    · right
      rfl
    · split
      · right
        rfl
      · split
        · right
          rfl
        · left
          rfl

/-- C3: allocation is atomic.  For every call of the slice-decorated DL or
UL allocation that returns a failure outcome, no reservation is retained:
the per-cell state (resource-grid grants, PDCCH reservations and UCI
reservations) and the slice consumed-RB counter are exactly as they were
before the call. -/
theorem c3_allocation_atomic (st : ue_cell_grid_allocator) (cand : ran_slice_candidate)
    (req : ue_grant_request) :
    ((dl_slice_allocate_dl_grant st cand req).1.status ≠ alloc_status.success →
      (dl_slice_allocate_dl_grant st cand req).2.1.cells = st.cells ∧
      (dl_slice_allocate_dl_grant st cand req).2.2 = cand) ∧
    ((ul_slice_allocate_ul_grant st cand req).1.status ≠ alloc_status.success →
      (ul_slice_allocate_ul_grant st cand req).2.1.cells = st.cells ∧
      (ul_slice_allocate_ul_grant st cand req).2.2 = cand) := by
  constructor
  · intro hfail
    have hres : (dl_slice_allocate_dl_grant st cand req).1
        = (st.allocate_dl_grant req cand.slice_id).1 := by
      unfold dl_slice_allocate_dl_grant
      by_cases hs : (st.allocate_dl_grant req cand.slice_id).1.status = alloc_status.success <;>
        simp [hs]
    have hst : (dl_slice_allocate_dl_grant st cand req).2.1
        = (st.allocate_dl_grant req cand.slice_id).2 := by
      unfold dl_slice_allocate_dl_grant
      by_cases hs : (st.allocate_dl_grant req cand.slice_id).1.status = alloc_status.success <;>
        simp [hs]
    rw [hres] at hfail
    constructor
    · rw [hst]
      rcases alloc_dl_cases st req cand.slice_id with hs | hc
      · exact absurd hs hfail
      · exact hc
    · unfold dl_slice_allocate_dl_grant
      by_cases hs : (st.allocate_dl_grant req cand.slice_id).1.status = alloc_status.success
      · exact absurd hs hfail
      · simp [hs]
  · intro hfail
    have hres : (ul_slice_allocate_ul_grant st cand req).1
        = (st.allocate_ul_grant req cand.slice_id).1 := by
      unfold ul_slice_allocate_ul_grant
      by_cases hs : (st.allocate_ul_grant req cand.slice_id).1.status = alloc_status.success <;>
        simp [hs]
    have hst : (ul_slice_allocate_ul_grant st cand req).2.1
        = (st.allocate_ul_grant req cand.slice_id).2 := by
      unfold ul_slice_allocate_ul_grant
      by_cases hs : (st.allocate_ul_grant req cand.slice_id).1.status = alloc_status.success <;>
        simp [hs]
    rw [hres] at hfail
    constructor
    · rw [hst]
      rcases alloc_ul_cases st req cand.slice_id with hs | hc
      · exact absurd hs hfail
      · exact hc
    · unfold ul_slice_allocate_ul_grant
      by_cases hs : (st.allocate_ul_grant req cand.slice_id).1.status = alloc_status.success
      · exact absurd hs hfail
      · simp [hs]



theorem find_space_cache_mono (c : cell_context) (req : ue_grant_request) (dir : grant_dir) :
    ∀ (slots cache : List Nat) (s : Nat), s ∈ cache →
      s ∈ (find_space c req dir cache slots).2 := by
  intro slots
  induction slots with
  | nil =>
    intro cache s hs
    simpa [find_space] using hs
  | cons a rest ih =>
    intro cache s hs
    unfold find_space
    by_cases hmem : a ∈ cache
    · simp only [if_pos hmem]
      exact ih cache s hs
    · simp only [if_neg hmem]
      cases hfr : find_rb_start c req dir a with
      | some r => simpa using hs
      | none => exact ih (cache ++ [a]) s (List.mem_append_left _ hs)

theorem find_space_success (c : cell_context) (req : ue_grant_request) (dir : grant_dir) :
    ∀ (slots cache : List Nat) (s r : Nat),
      (find_space c req dir cache slots).1 = some (s, r) →
      s ∉ cache ∧ s ∈ slots ∧ find_rb_start c req dir s = some r := by
  intro slots
  induction slots with
  | nil =>
    intro cache s r h
    simp [find_space] at h
  | cons a rest ih =>
    intro cache s r h
    unfold find_space at h
    by_cases hmem : a ∈ cache
    · simp only [if_pos hmem] at h
      have := ih cache s r h
      exact ⟨this.1, List.mem_cons_of_mem _ this.2.1, this.2.2⟩
    · simp only [if_neg hmem] at h
      cases hfr : find_rb_start c req dir a with
      | some rb =>
        rw [hfr] at h
        simp at h
        refine ⟨?_, ?_, ?_⟩
        · rw [← h.1]
          exact hmem
        · rw [← h.1]
          exact List.mem_cons_self _ _
        · rw [← h.1, hfr, h.2]
      | none =>
        rw [hfr] at h
        have := ih (cache ++ [a]) s r h
        refine ⟨fun hc => this.1 (List.mem_append_left _ hc), List.mem_cons_of_mem _ this.2.1,
          this.2.2⟩

theorem find_space_none_covers (c : cell_context) (req : ue_grant_request) (dir : grant_dir) :
    ∀ (slots cache : List Nat), (find_space c req dir cache slots).1 = none →
      ∀ s ∈ slots, s ∈ (find_space c req dir cache slots).2 := by
  intro slots
  induction slots with
  | nil =>
    intro cache _ s hs
    simp at hs
  | cons a rest ih =>
    intro cache hnone s hs
    unfold find_space at hnone ⊢
    by_cases hmem : a ∈ cache
    · simp only [if_pos hmem] at hnone ⊢
      rcases List.mem_cons.mp hs with rfl | hrest
      · exact find_space_cache_mono c req dir rest cache s hmem
      · exact ih cache hnone s hrest
    · simp only [if_neg hmem] at hnone ⊢
      cases hfr : find_rb_start c req dir a with
      | some rb =>
        rw [hfr] at hnone
        simp at hnone
      | none =>
        rw [hfr] at hnone
        rcases List.mem_cons.mp hs with rfl | hrest
        · refine find_space_cache_mono c req dir rest _ s ?_
          simp
        · exact ih (cache ++ [a]) hnone s hrest

theorem find_space_nodup (c : cell_context) (req : ue_grant_request) (dir : grant_dir) :
    ∀ (slots cache : List Nat), cache.Nodup → (find_space c req dir cache slots).2.Nodup := by
  intro slots
  induction slots with
  | nil =>
    intro cache h
    simpa [find_space] using h
  | cons a rest ih =>
    intro cache h
    unfold find_space
    by_cases hmem : a ∈ cache
    · simp only [if_pos hmem]
      exact ih cache h
    · simp only [if_neg hmem]
      cases hfr : find_rb_start c req dir a with
      | some rb => simpa using h
      | none =>
        refine ih (cache ++ [a]) ?_
        simp [List.nodup_append, h, hmem]



theorem alloc_dl_no_rb_covers (st : ue_cell_grid_allocator) (req : ue_grant_request)
    (slice_id : Nat) :
    (st.allocate_dl_grant req slice_id).1.status = alloc_status.no_rb_space →
    ∀ s ∈ window_slots st.current_slot,
      s ∈ (st.allocate_dl_grant req slice_id).2.slots_with_no_pdsch_space := by
  unfold ue_cell_grid_allocator.allocate_dl_grant
  split
  · intro hstat
    simp at hstat
  · split
    · intro hstat
      simp at hstat
    · split
      · next hpd xscrut cache heq =>
        rename_i x0 c hfindeq
        intro _ s hs
        have hmem := find_space_none_covers c req grant_dir.dl
          (window_slots st.current_slot) st.slots_with_no_pdsch_space
          (by rw [heq]) s hs
        rw [heq] at hmem
        exact hmem
      · intro hstat
        simp at hstat



theorem alloc_ul_no_rb_covers (st : ue_cell_grid_allocator) (req : ue_grant_request)
    (slice_id : Nat) :
    (st.allocate_ul_grant req slice_id).1.status = alloc_status.no_rb_space →
    ∀ s ∈ window_slots st.current_slot,
      s ∈ (st.allocate_ul_grant req slice_id).2.slots_with_no_pusch_space := by
  unfold ue_cell_grid_allocator.allocate_ul_grant
  split
  · intro hstat
    simp at hstat
  · split
    · intro hstat
      simp at hstat
    · split
      · intro hstat
        simp at hstat
      · split
        · next hpd xscrut cache heq =>
          rename_i x0 c hfindeq huci
          intro _ s hs
          have hmem := find_space_none_covers c req grant_dir.ul
            (window_slots st.current_slot) st.slots_with_no_pusch_space
            (by rw [heq]) s hs
          rw [heq] at hmem
          exact hmem
        · intro hstat
          simp at hstat

/-- C4: the no-space caches.  Immediately after every slot_indication call
both caches are empty; the placement search returns only slots that are not
recorded in the cache; when the search fails, every examined window slot is
recorded in the cache afterwards; slots already in the cache stay in it; a
slot is appended at most once (no duplicates arise); and when an allocation
fails for lack of RB space, every slot of the look-ahead window is in the
corresponding direction cache afterwards. -/
theorem c4_no_space_caches :
    (∀ (st : ue_cell_grid_allocator) (sl : Nat),
      (st.slot_indication sl).slots_with_no_pdsch_space = [] ∧
      (st.slot_indication sl).slots_with_no_pusch_space = []) ∧
    (∀ (c : cell_context) (req : ue_grant_request) (dir : grant_dir)
        (cache slots : List Nat) (s r : Nat),
      (find_space c req dir cache slots).1 = some (s, r) →
        s ∉ cache ∧ s ∈ slots ∧ find_rb_start c req dir s = some r) ∧
    (∀ (c : cell_context) (req : ue_grant_request) (dir : grant_dir)
        (cache slots : List Nat),
      (find_space c req dir cache slots).1 = none →
        ∀ s ∈ slots, s ∈ (find_space c req dir cache slots).2) ∧
    (∀ (c : cell_context) (req : ue_grant_request) (dir : grant_dir)
        (cache slots : List Nat) (s : Nat),
      s ∈ cache → s ∈ (find_space c req dir cache slots).2) ∧
    (∀ (c : cell_context) (req : ue_grant_request) (dir : grant_dir)
        (cache slots : List Nat),
      cache.Nodup → (find_space c req dir cache slots).2.Nodup) ∧
    (∀ (st : ue_cell_grid_allocator) (req : ue_grant_request) (slice_id : Nat),
      (st.allocate_dl_grant req slice_id).1.status = alloc_status.no_rb_space →
        ∀ s ∈ window_slots st.current_slot,
          s ∈ (st.allocate_dl_grant req slice_id).2.slots_with_no_pdsch_space) ∧
    (∀ (st : ue_cell_grid_allocator) (req : ue_grant_request) (slice_id : Nat),
      (st.allocate_ul_grant req slice_id).1.status = alloc_status.no_rb_space →
        ∀ s ∈ window_slots st.current_slot,
          s ∈ (st.allocate_ul_grant req slice_id).2.slots_with_no_pusch_space) := by
  refine ⟨fun st sl => ⟨rfl, rfl⟩, ?_, ?_, ?_, ?_, ?_, ?_⟩
  · intro c req dir cache slots s r h
    exact find_space_success c req dir slots cache s r h
  · intro c req dir cache slots h s hs
    exact find_space_none_covers c req dir slots cache h s hs
  · intro c req dir cache slots s hs
    exact find_space_cache_mono c req dir slots cache s hs
  · intro c req dir cache slots h
    exact find_space_nodup c req dir slots cache h
  · exact alloc_dl_no_rb_covers
  · exact alloc_ul_no_rb_covers



theorem grants_overlap_symm (a b : sched_grant) (h : grants_overlap a b) :
    grants_overlap b a := by
  obtain ⟨h1, h2, h3, h4, h5, h6, h7⟩ := h
  exact ⟨h1.symm, h2.symm, h3.symm, h5, h4, h7, h6⟩

theorem placement_free_no_overlap (c : cell_context) (g : sched_grant)
    (h : placement_free c g = true) : ∀ g0 ∈ c.grants, ¬ grants_overlap g g0 := by
  unfold placement_free at h
  rw [Bool.and_eq_true] at h
  intro g0 hg0
  have := (List.all_eq_true.mp h.2) g0 hg0
  simpa using this

theorem find_rb_start_free (c : cell_context) (req : ue_grant_request) (dir : grant_dir)
    (s r : Nat) (h : find_rb_start c req dir s = some r) :
    placement_free c (mk_grant req dir s r) = true := by
  unfold find_rb_start at h
  have h2 := List.find?_some h
  exact h2

theorem mem_set_cell (st : ue_cell_grid_allocator) (c' c0 : cell_context)
    (h : c0 ∈ (st.set_cell c').cells) : c0 = c' ∨ c0 ∈ st.cells := by
  unfold ue_cell_grid_allocator.set_cell at h
  simp only [List.mem_map] at h
  obtain ⟨c1, hc1, hceq⟩ := h
  by_cases hcond : c1.cell_index = c'.cell_index
  · rw [if_pos hcond] at hceq
    exact Or.inl hceq.symm
  · rw [if_neg hcond] at hceq
    exact Or.inr (hceq ▸ hc1)

theorem pairwise_snoc (l : List sched_grant) (g : sched_grant)
    (hl : l.Pairwise (fun a b => ¬ grants_overlap a b))
    (hg : ∀ g0 ∈ l, ¬ grants_overlap g g0) :
    (l ++ [g]).Pairwise (fun a b => ¬ grants_overlap a b) := by
  rw [List.pairwise_append]
  refine ⟨hl, by simp, ?_⟩
  intro a ha b hb
  rw [List.mem_singleton] at hb
  subst hb
  exact fun hov => (hg a ha) (grants_overlap_symm a b hov)

theorem alloc_dl_preserves (st : ue_cell_grid_allocator) (req : ue_grant_request)
    (slice_id : Nat) (h : grid_conflict_free st) :
    grid_conflict_free (st.allocate_dl_grant req slice_id).2 := by
  unfold ue_cell_grid_allocator.allocate_dl_grant
  split
  · exact h
  · split
    · exact h
    · split
      · exact fun c0 hc0 => h c0 hc0
      · next hpd xscrut s r cache heq =>
        rename_i x0 c hfindeq
        intro c0 hc0
        rcases mem_set_cell _ _ _ hc0 with rfl | hold
        · have hcmem : c ∈ st.cells := List.mem_of_find?_eq_some hfindeq
          have hfs := find_space_success c req grant_dir.dl
            (window_slots st.current_slot) st.slots_with_no_pdsch_space s r (by rw [heq])
          have hfree := find_rb_start_free c req grant_dir.dl s r hfs.2.2
          exact pairwise_snoc _ _ (h c hcmem) (placement_free_no_overlap c _ hfree)
        · exact h c0 hold

theorem alloc_ul_preserves (st : ue_cell_grid_allocator) (req : ue_grant_request)
    (slice_id : Nat) (h : grid_conflict_free st) :
    grid_conflict_free (st.allocate_ul_grant req slice_id).2 := by
  unfold ue_cell_grid_allocator.allocate_ul_grant
  split
  · exact h
  · split
    · exact h
    · split
      · exact h
      · split
        · exact fun c0 hc0 => h c0 hc0
        · next hpd xscrut s r cache heq =>
          rename_i x0 c hfindeq huci
          intro c0 hc0
          rcases mem_set_cell _ _ _ hc0 with rfl | hold
          · have hcmem : c ∈ st.cells := List.mem_of_find?_eq_some hfindeq
            have hfs := find_space_success c req grant_dir.ul
              (window_slots st.current_slot) st.slots_with_no_pusch_space s r (by rw [heq])
            have hfree := find_rb_start_free c req grant_dir.ul s r hfs.2.2
            exact pairwise_snoc _ _ (h c hcmem) (placement_free_no_overlap c _ hfree)
          · exact h c0 hold

/-- C1: the grid-overlap invariant.  In every reachable allocator state, for
every cell, no two grants recorded in the resource grid of that cell occupy
overlapping (RB, symbol-range) positions for the same cell, slot and
direction. -/
theorem c1_grid_overlap_invariant (st : ue_cell_grid_allocator) (h : reachable st) : grid_conflict_free st := by
  induction h with
  | init => intro c hc; simp [ue_cell_grid_allocator.init] at hc
  | add_cell st0 idx cfg _ ih =>
    intro c hc
    unfold ue_cell_grid_allocator.add_cell at hc
    by_cases hhas : st0.has_cell idx
    · rw [if_pos hhas] at hc
      exact ih c hc
    · rw [if_neg hhas] at hc
      simp only [List.mem_append, List.mem_singleton] at hc
      rcases hc with hc | rfl
      · exact ih c hc
      · simp
  | slot_indication st0 sl _ ih =>
    intro c hc
    unfold ue_cell_grid_allocator.slot_indication at hc
    simp only [List.mem_map] at hc
    obtain ⟨c1, hc1, rfl⟩ := hc
    exact List.Pairwise.sublist (List.filter_sublist _) (ih c1 hc1)
  | alloc_dl st0 req slice _ ih => exact alloc_dl_preserves st0 req slice ih
  | alloc_ul st0 req slice _ ih => exact alloc_ul_preserves st0 req slice ih



/-- C8: a TDD configuration with two sub-patterns concatenates the periods:
the combined period is the sum of the two sub-pattern periods, the
classification of any slot is a function of the slot index modulo the
combined period, offsets below the first period are classified by the first
sub-pattern and the remaining offsets by the second. -/
theorem c8_tdd_two_pattern_concat (p1 p2 : tdd_pattern) :
    tdd_combined_period p1 (some p2) = p1.period + p2.period ∧
    (∀ s, tdd_classify p1 (some p2) s
        = tdd_classify p1 (some p2) (s % (p1.period + p2.period))) ∧
    (∀ s, s % (p1.period + p2.period) < p1.period →
        tdd_classify p1 (some p2) s = pattern_classify p1 (s % (p1.period + p2.period))) ∧
    (∀ s, p1.period ≤ s % (p1.period + p2.period) →
        tdd_classify p1 (some p2) s
          = pattern_classify p2 (s % (p1.period + p2.period) - p1.period)) := by
  refine ⟨rfl, ?_, ?_, ?_⟩
  · intro s
    unfold tdd_classify
    simp only [tdd_combined_period]
    rw [Nat.mod_mod_of_dvd _ dvd_rfl]
  · intro s hs
    unfold tdd_classify
    simp only [tdd_combined_period] at hs ⊢
    rw [if_pos hs]
  · intro s hs
    unfold tdd_classify
    simp only [tdd_combined_period] at hs ⊢
    rw [if_neg (by omega)]

set_option maxRecDepth 40000 in
/-- C5: for the modelled cell with TDD pattern (10, 6, 4, 3, 4) and a single
terminal whose DL buffer is set once to 10,000,000 pending bytes, every one
of the first 1000 scheduled slots classified fully-DL produces at least one
DL grant for that terminal, and every per-slot result reports success. -/
theorem c5_all_dl_slots_scheduled : run_dl_scenario 1000 0 scenario_pending_bytes = true := by rfl

set_option maxRecDepth 40000 in
/-- C6: for the same modelled cell, after the terminal reports a buffer
status of 10,000,000 bytes and a warm-up of as many scheduled slots as the
configured number of UL symbols has elapsed, every subsequent fully-UL slot
among the next 1000 scheduled slots produces at least one PUSCH grant. -/
theorem c6_all_ul_slots_scheduled : run_ul_scenario 1000 ul_warmup_slots scenario_pending_bytes = true := by rfl

end srsran

namespace srsran

/-- Witness for C1: the invariant holds at the concrete state reached by
registering a cell, issuing a slot indication and allocating one DL
grant. -/
theorem c1_grid_overlap_invariant_witness :
    grid_conflict_free (((demo_alloc_state.slot_indication 0).allocate_dl_grant
      demo_req 1).2) :=
  c1_grid_overlap_invariant _
    (reachable.alloc_dl _ demo_req 1
      (reachable.slot_indication _ 0
        (reachable.add_cell _ 0 demo_cfg reachable.init)))

/-- Witness for C2: at the demo state the wrapped DL call succeeds, the
decorator returns exactly the wrapped result and debits the candidate by
the granted RB count. -/
theorem c2_slice_decorator_pure_witness :
    (dl_slice_allocate_dl_grant demo_alloc_state demo_cand demo_req).1
        = (demo_alloc_state.allocate_dl_grant demo_req demo_cand.slice_id).1 ∧
    (dl_slice_allocate_dl_grant demo_alloc_state demo_cand demo_req).2.2
        = demo_cand.store_grant
            (demo_alloc_state.allocate_dl_grant demo_req demo_cand.slice_id).1.alloc_nof_rbs :=
  ⟨(c2_slice_decorator_pure demo_alloc_state demo_cand demo_req).1.1,
   (c2_slice_decorator_pure demo_alloc_state demo_cand demo_req).1.2.2.1 (by decide)⟩

/-- Witness for C3: a DL allocation against the empty allocator fails and
retains nothing: the cells and the slice candidate are unchanged. -/
theorem c3_allocation_atomic_witness :
    (dl_slice_allocate_dl_grant ue_cell_grid_allocator.init demo_cand demo_req).2.1.cells
        = ue_cell_grid_allocator.init.cells ∧
    (dl_slice_allocate_dl_grant ue_cell_grid_allocator.init demo_cand demo_req).2.2
        = demo_cand :=
  (c3_allocation_atomic ue_cell_grid_allocator.init demo_cand demo_req).1 (by decide)

/-- Witness for C4: the caches are empty right after a concrete
slot_indication, and a concrete successful placement search returns a slot
that is not cached, is in the searched window and carries its RB start. -/
theorem c4_no_space_caches_witness :
    ((demo_alloc_state.slot_indication 3).slots_with_no_pdsch_space = [] ∧
     (demo_alloc_state.slot_indication 3).slots_with_no_pusch_space = []) ∧
    ((0 : Nat) ∉ ([] : List Nat) ∧ (0 : Nat) ∈ [0] ∧
     find_rb_start demo_cell demo_req grant_dir.dl 0 = some 0) :=
  ⟨c4_no_space_caches.1 demo_alloc_state 3,
   c4_no_space_caches.2.1 demo_cell demo_req grant_dir.dl [] [0] 0 0 (by decide)⟩

/-- Witness for C8: the two-pattern configuration of the test file,
sub-patterns of periods 6 and 4: the combined period is 10, slot 17 is
classified like slot 7, and slot 17 falls into the second sub-pattern at
offset 1. -/
theorem c8_tdd_two_pattern_concat_witness :
    tdd_combined_period test_pattern2a (some test_pattern2b) = 10 ∧
    tdd_classify test_pattern2a (some test_pattern2b) 17
        = tdd_classify test_pattern2a (some test_pattern2b) 7 ∧
    tdd_classify test_pattern2a (some test_pattern2b) 17
        = pattern_classify test_pattern2b 1 := by
  have h := c8_tdd_two_pattern_concat test_pattern2a test_pattern2b
  refine ⟨by rw [h.1]; rfl, ?_, ?_⟩
  · simpa using h.2.1 17
  · simpa using h.2.2.2 17 (by decide)

end srsran
